import Mathlib

/-
Verification of the voice-coach backend (src/app.py) against its
natural-language specification.

The Python code is shallowly embedded as follows:
  - parsed JSON documents are values of the inductive type `Json`; JSON
    numbers are rationals (the claims under study never depend on binary
    floating-point rounding, and no arithmetic is performed on scores);
    non-finite floats (NaN / Infinity literals) are not modelled;
  - Python dictionaries coming from `json.loads` are association lists
    with last-occurrence-wins lookup (matching dict construction where a
    later duplicate key overwrites an earlier one);
  - fallible Python operations (`float(x)`, `int(x)`, `d[k]`, pydantic
    validation) return `Option` / `Except PyErr`; an uncaught Python
    exception is an `Except.error`;
  - calls to the external Gemini provider are modelled by their outcome,
    an `Except Unit String`: `.ok text` is a response whose `.text`
    attribute is `text`, `.error ()` is a raised exception (network,
    auth, quota, ...);
  - I/O side effects that do not influence the JSON control flow (prompt
    construction, writing `speech.wav`, MIME-type guessing, logging) are
    not modelled.
-/

set_option autoImplicit false
set_option maxRecDepth 100000

/-- A parsed JSON document, as produced by Python's `json.loads`. -/
inductive Json where
  | null : Json
  | bool : Bool → Json
  | num : Rat → Json
  | str : String → Json
  | arr : List Json → Json
  | obj : List (String × Json) → Json

/-- Lookup in a parsed JSON object.  Python dict construction lets a later
duplicate key overwrite an earlier one, hence the last occurrence wins. -/
def dictGet (m : List (String × Json)) (k : String) : Option Json :=
  (m.reverse.find? (fun p => p.fst == k)).map (fun p => p.snd)

/-- Python's `d.get(k, default)`. -/
def dictGetD (m : List (String × Json)) (k : String) (d : Json) : Json :=
  (dictGet m k).getD d

/-- Python truthiness of a JSON-derived value (`bool(x)`). -/
def pyTruthy : Json → Bool
  | Json.null => false
  | Json.bool b => b
  | Json.num q => decide (q ≠ 0)
  | Json.str s => decide (s ≠ "")
  | Json.arr [] => false
  | Json.arr (_ :: _) => true
  | Json.obj [] => false
  | Json.obj (_ :: _) => true

/-- Python's short-circuiting `a or b` on JSON-derived values. -/
def pyOr (a b : Json) : Json :=
  if pyTruthy a = true then a else b

/-- Truncation of a rational toward zero, which is what Python's
`int(x)` does on a float. -/
def ratTrunc (q : Rat) : Int :=
  q.num.tdiv (q.den : Int)

/-- Python whitespace as stripped by `str.strip()` (ASCII fragment). -/
def pyWs (c : Char) : Bool :=
  c == ' ' || c == '\t' || c == '\n' || c == '\r' || c == '\x0b' || c == '\x0c'

/-- Character-list version of Python's `str.strip()`. -/
def stripChars (l : List Char) : List Char :=
  ((l.dropWhile pyWs).reverse.dropWhile pyWs).reverse

/-- Decimal digits to a natural number. -/
def digitsToNat (ds : List Char) : Nat :=
  ds.foldl (fun a c => a * 10 + (c.toNat - 48)) 0

/-- Assemble a decimal number from its sign, integer digits, fraction
digits, exponent sign and exponent, using core rational construction
(`mkRat` normalizes). -/
def mkNum (neg : Bool) (ip fp : List Char) (eneg : Bool) (e : Nat) : Rat :=
  let base : Nat := Nat.pow 10 fp.length
  let mant : Int := Int.ofNat (digitsToNat ip * base + digitsToNat fp)
  let mant : Int := if neg then Int.neg mant else mant
  if eneg then mkRat mant (base * Nat.pow 10 e)
  else mkRat (mant * Int.ofNat (Nat.pow 10 e)) base

/-- Python's `float(s)` on a string: optional surrounding whitespace, an
optional sign and a decimal literal with optional fraction and exponent.
(Underscore separators and `inf` / `nan` are not modelled.) -/
def pyFloatStr (s : String) : Option Rat :=
  let l := stripChars s.data
  let sign : Bool × List Char :=
    match l with
    | '-' :: r => (true, r)
    | '+' :: r => (false, r)
    | _ => (false, l)
  let l1 := sign.snd
  let ip := l1.takeWhile Char.isDigit
  let l2 := l1.drop ip.length
  let frac : List Char × List Char :=
    match l2 with
    | '.' :: r => (r.takeWhile Char.isDigit, r.drop (r.takeWhile Char.isDigit).length)
    | _ => ([], l2)
  let fp := frac.fst
  let l3 := frac.snd
  if ip.isEmpty && fp.isEmpty then none
  else
    match l3 with
    | [] => some (mkNum sign.fst ip fp false 0)
    | e :: r =>
      if e == 'e' || e == 'E' then
        let esign : Bool × List Char :=
          match r with
          | '-' :: rr => (true, rr)
          | '+' :: rr => (false, rr)
          | _ => (false, r)
        let ed := esign.snd.takeWhile Char.isDigit
        if ed.isEmpty || !(esign.snd.drop ed.length).isEmpty then none
        else some (mkNum sign.fst ip fp esign.fst (digitsToNat ed))
      else none

/-- Python's `int(s)` on a string: optional whitespace, optional sign,
decimal digits only. -/
def pyIntStr (s : String) : Option Int :=
  let l := stripChars s.data
  let sign : Bool × List Char :=
    match l with
    | '-' :: r => (true, r)
    | '+' :: r => (false, r)
    | _ => (false, l)
  let ds := sign.snd
  if ds.isEmpty || !(ds.all Char.isDigit) then none
  else
    let n : Nat := ds.foldl (fun a c => a * 10 + (c.toNat - 48)) 0
    some (if sign.fst then -(n : Int) else (n : Int))

/-- Python's `float(x)` on a JSON-derived value; `none` is a raised
`TypeError` / `ValueError`. -/
def pyFloat : Json → Option Rat
  | Json.num q => some q
  | Json.bool b => some (if b then 1 else 0)
  | Json.str s => pyFloatStr s
  | _ => none

/-- Python's `int(x)` on a JSON-derived value; `none` is a raised
`TypeError` / `ValueError`. -/
def pyInt : Json → Option Int
  | Json.num q => some (ratTrunc q)
  | Json.bool b => some (if b then 1 else 0)
  | Json.str s => pyIntStr s
  | _ => none

/-- The kinds of Python exceptions relevant to the backend's control flow. -/
inductive PyErr where
  | apiError
  | jsonDecodeError
  | attributeError
  | typeError
  | keyError
  | validationError
deriving DecidableEq

/-- `float(x)` as an exception-carrying computation. -/
def pyFloatE (v : Json) : Except PyErr Rat :=
  match pyFloat v with
  | some q => Except.ok q
  | none => Except.error PyErr.typeError

/-- `int(x)` as an exception-carrying computation. -/
def pyIntE (v : Json) : Except PyErr Int :=
  match pyInt v with
  | some n => Except.ok n
  | none => Except.error PyErr.typeError

/-- Python's `x[k]` subscript on a JSON-derived value: `KeyError` on a
dict without the key, `TypeError` when `x` is not a dict. -/
def pyGetItem (v : Json) (k : String) : Except PyErr Json :=
  match v with
  | Json.obj m =>
    match dictGet m k with
    | some w => Except.ok w
    | none => Except.error PyErr.keyError
  | _ => Except.error PyErr.typeError

/-
Response normalization (src/app.py lines 76, 152, 185, 262):
`response.text.strip().replace("```json", "").replace("```", "")`.
`str.replace` deletes every non-overlapping occurrence, scanning left to
right.  `delAllFuel` is that deletion with explicit fuel so that it is
structurally recursive (the fuel `l.length` always suffices because a
non-empty pattern consumes at least one character per match). -/

/-- Delete every non-overlapping occurrence of the non-empty pattern
`pat`, scanning left to right, with explicit fuel. -/
def delAllFuel (pat : List Char) : Nat → List Char → List Char
  | 0, l => l
  | _ + 1, [] => []
  | fuel + 1, c :: rest =>
    if pat.isPrefixOf (c :: rest) then
      delAllFuel pat fuel (rest.drop (pat.length - 1))
    else
      c :: delAllFuel pat fuel rest

/-- Python's `s.replace(pat, "")` for a non-empty `pat`. -/
def delAll (pat : List Char) (l : List Char) : List Char :=
  delAllFuel pat l.length l

/-- The code-fence opener deleted first: `"```json"`. -/
def fenceJson : List Char := ("```json").data

/-- The bare code fence deleted second: `"```"`. -/
def fence : List Char := ("```").data

/-- The Response Normalizer:
`text.strip().replace("```json", "").replace("```", "")`. -/
def normalizeResponse (s : String) : String :=
  String.mk (delAll fence (delAll fenceJson (stripChars s.data)))

/-
A strict JSON parser modelling Python's `json.loads` (minus the
non-finite `NaN` / `Infinity` extensions and `\uXXXX` surrogate
pairing).  `parseVal` is fuel-indexed and structurally recursive, so all
parses reduce inside the kernel.  A list or object continuation is
parsed by re-entering `parseVal` on the remainder with the opening
bracket re-attached; a lookahead check rejects trailing commas.
-/

/-- JSON inter-token whitespace. -/
def isJsonWs (c : Char) : Bool :=
  c == ' ' || c == '\t' || c == '\n' || c == '\r'

/-- Skip JSON inter-token whitespace. -/
def skipWs (l : List Char) : List Char :=
  l.dropWhile isJsonWs

/-- Value of a hexadecimal digit. -/
def hexVal? (c : Char) : Option Nat :=
  if c.isDigit then some (c.toNat - 48)
  else if 'a' ≤ c ∧ c ≤ 'f' then some (c.toNat - 87)
  else if 'A' ≤ c ∧ c ≤ 'F' then some (c.toNat - 55)
  else none

/-- Single-character JSON string escapes. -/
def escChar? : Char → Option Char
  | '"' => some '"'
  | '\\' => some '\\'
  | '/' => some '/'
  | 'b' => some '\x08'
  | 'f' => some '\x0c'
  | 'n' => some '\n'
  | 'r' => some '\r'
  | 't' => some '\t'
  | _ => none

/-- Parse the body of a JSON string up to and including the closing
quote; returns the decoded characters and the rest of the input. -/
def parseStrBody : List Char → Option (List Char × List Char)
  | '"' :: rest => some ([], rest)
  | '\\' :: 'u' :: h1 :: h2 :: h3 :: h4 :: rest =>
    match hexVal? h1, hexVal? h2, hexVal? h3, hexVal? h4 with
    | some a, some b, some c, some d =>
      match parseStrBody rest with
      | some (s, r) => some (Char.ofNat (((a * 16 + b) * 16 + c) * 16 + d) :: s, r)
      | none => none
    | _, _, _, _ => none
  | '\\' :: e :: rest =>
    match escChar? e with
    | some c =>
      match parseStrBody rest with
      | some (s, r) => some (c :: s, r)
      | none => none
    | none => none
  | c :: rest =>
    if c.toNat < 32 then none
    else
      match parseStrBody rest with
      | some (s, r) => some (c :: s, r)
      | none => none
  | [] => none

/-- Parse the optional exponent part of a JSON number. -/
def parseExpPart (neg : Bool) (ip fp : List Char) (l : List Char) : Option (Rat × List Char) :=
  match l with
  | c :: r =>
    if c == 'e' || c == 'E' then
      let esign : Bool × List Char :=
        match r with
        | '-' :: rr => (true, rr)
        | '+' :: rr => (false, rr)
        | _ => (false, r)
      let ed := esign.snd.takeWhile Char.isDigit
      if ed.isEmpty then none
      else some (mkNum neg ip fp esign.fst (digitsToNat ed), esign.snd.drop ed.length)
    else some (mkNum neg ip fp false 0, l)
  | [] => some (mkNum neg ip fp false 0, [])

/-- Parse a strict JSON number (no leading zeros, no bare `.5` / `5.`). -/
def parseNumber (l : List Char) : Option (Rat × List Char) :=
  let sign : Bool × List Char :=
    match l with
    | '-' :: r => (true, r)
    | _ => (false, l)
  let l1 := sign.snd
  let ip := l1.takeWhile Char.isDigit
  if ip.isEmpty then none
  else if 1 < ip.length ∧ ip.headD '0' = '0' then none
  else
    let l2 := l1.drop ip.length
    match l2 with
    | '.' :: r =>
      let fp := r.takeWhile Char.isDigit
      if fp.isEmpty then none
      else parseExpPart sign.fst ip fp (r.drop fp.length)
    | _ => parseExpPart sign.fst ip [] l2

/-- Fuel-indexed parser for a single JSON value; returns the value and
the unconsumed remainder. -/
def parseVal : Nat → List Char → Option (Json × List Char)
  | 0, _ => none
  | fuel + 1, input =>
    match skipWs input with
    | '{' :: rest =>
      (match skipWs rest with
       | '}' :: r2 => some (Json.obj [], r2)
       | '"' :: r2 =>
         (match parseStrBody r2 with
          | none => none
          | some (k, r3) =>
            match skipWs r3 with
            | ':' :: r4 =>
              (match parseVal fuel r4 with
               | none => none
               | some (v, r5) =>
                 match skipWs r5 with
                 | ',' :: r6 =>
                   (match skipWs r6 with
                    | '"' :: _ =>
                      (match parseVal fuel ('{' :: r6) with
                       | some (Json.obj kvs, r7) => some (Json.obj ((String.mk k, v) :: kvs), r7)
                       | _ => none)
                    | _ => none)
                 | '}' :: r6 => some (Json.obj [(String.mk k, v)], r6)
                 | _ => none)
            | _ => none)
       | _ => none)
    | '[' :: rest =>
      (match skipWs rest with
       | ']' :: r2 => some (Json.arr [], r2)
       | _ =>
         match parseVal fuel rest with
         | none => none
         | some (v, r3) =>
           match skipWs r3 with
           | ',' :: r4 =>
             (match skipWs r4 with
              | ']' :: _ => none
              | _ =>
                match parseVal fuel ('[' :: r4) with
                | some (Json.arr xs, r5) => some (Json.arr (v :: xs), r5)
                | _ => none)
           | ']' :: r4 => some (Json.arr [v], r4)
           | _ => none)
    | '"' :: rest =>
      (match parseStrBody rest with
       | some (s, r) => some (Json.str (String.mk s), r)
       | none => none)
    | 't' :: 'r' :: 'u' :: 'e' :: rest => some (Json.bool true, rest)
    | 'f' :: 'a' :: 'l' :: 's' :: 'e' :: rest => some (Json.bool false, rest)
    | 'n' :: 'u' :: 'l' :: 'l' :: rest => some (Json.null, rest)
    | other =>
      (match parseNumber other with
       | some (q, r) => some (Json.num q, r)
       | none => none)

/-- Python's `json.loads`: parse one value and require only whitespace
after it; `none` is a raised `json.JSONDecodeError`. -/
def parseJson (s : String) : Option Json :=
  match parseVal (s.data.length + 2) s.data with
  | some (j, rest) => if (skipWs rest).isEmpty then some j else none
  | none => none

/-
Data model (src/app.py lines 14-32): the pydantic models `DetailedTip`
and `FeedbackReport`.
-/

/-- A single piece of feedback with a timestamp (src/app.py lines 14-18). -/
structure DetailedTip where
  original_timestamp : String
  transcribed_timestamp : String
  suggestion : String
deriving DecidableEq

/-- The overall feedback report structure (src/app.py lines 20-32). -/
structure FeedbackReport where
  score : Rat
  overall_feedback : String
  word_repetition_score : Rat
  word_repetition_count : Int
  speaking_pace_score : Rat
  speaking_pace_count : Int
  filler_words_score : Rat
  voice_clarity_score : Rat
  filler_words_count : Int
  repetitive_words_list : List String
  detailed_tips : List DetailedTip
deriving DecidableEq

/-- The `coerced` dict built at src/app.py lines 266-283: numeric fields
already cast, `overall_feedback` and the two list fields still loosely
typed (pydantic validates them at line 284). -/
structure CoercedReport where
  score : Rat
  overall_feedback : Json
  word_repetition_score : Rat
  word_repetition_count : Int
  speaking_pace_score : Rat
  speaking_pace_count : Int
  filler_words_score : Rat
  voice_clarity_score : Rat
  filler_words_count : Int
  repetitive_words_list : Json
  detailed_tips : Json

/-- The `isinstance(..., list)` fixup of src/app.py lines 280-283: keep a
list, replace anything else by the empty list. -/
def listFix : Json → Json
  | Json.arr xs => Json.arr xs
  | _ => Json.arr []

/-- src/app.py lines 266-283: build the `coerced` dict with safe
defaults.  The source computes the fields in order and the first raised
exception aborts the block; since every error is swallowed by the same
catch-all handler, the error token itself is irrelevant and a single
`typeError` stands for whichever cast raised. -/
def coercedDict (m : List (String × Json)) : Except PyErr CoercedReport :=
  match pyFloatE (pyOr (dictGetD m ("score") (Json.num 0)) (Json.num 0)),
        pyFloatE (pyOr (dictGetD m ("word_repetition_score") (Json.num 0)) (Json.num 0)),
        pyIntE (pyOr (dictGetD m ("word_repetition_count") (Json.num 0)) (Json.num 0)),
        pyFloatE (pyOr (dictGetD m ("speaking_pace_score") (Json.num 0)) (Json.num 0)),
        pyIntE (pyOr (dictGetD m ("speaking_pace_count") (Json.num 0)) (Json.num 0)),
        pyFloatE (pyOr (dictGetD m ("filler_words_score") (Json.num 0)) (Json.num 0)),
        pyFloatE (pyOr (dictGetD m ("voice_clarity_score") (Json.num 0)) (Json.num 0)),
        pyIntE (pyOr (dictGetD m ("filler_words_count") (Json.num 0)) (Json.num 0)) with
  | Except.ok score, Except.ok wrs, Except.ok wrc, Except.ok sps,
    Except.ok spc, Except.ok fws, Except.ok vcs, Except.ok fwc =>
    Except.ok
      ⟨score,
       pyOr (dictGetD m ("overall_feedback") (Json.str "")) (Json.str ""),
       wrs, wrc, sps, spc, fws, vcs, fwc,
       listFix (pyOr (dictGetD m ("repetitive_words_list") Json.null) (Json.arr [])),
       listFix (pyOr (dictGetD m ("detailed_tips") Json.null) (Json.arr []))⟩
  | _, _, _, _, _, _, _, _ => Except.error PyErr.typeError

/-- Pydantic validation of a `str` field (pydantic v2 does not coerce
non-strings). -/
def expectStr (v : Json) : Except PyErr String :=
  match v with
  | Json.str s => Except.ok s
  | _ => Except.error PyErr.validationError

/-- Elementwise pydantic validation of a list of strings. -/
def strListE : List Json → Except PyErr (List String)
  | [] => Except.ok []
  | v :: vs =>
    match expectStr v, strListE vs with
    | Except.ok s, Except.ok rest => Except.ok (s :: rest)
    | _, _ => Except.error PyErr.validationError

/-- Pydantic validation of a `List[str]` field. -/
def expectStrList (v : Json) : Except PyErr (List String) :=
  match v with
  | Json.arr xs => strListE xs
  | _ => Except.error PyErr.validationError

/-- Pydantic validation of a required `str` field of a `DetailedTip`. -/
def reqStrField (m : List (String × Json)) (k : String) : Except PyErr String :=
  match dictGet m k with
  | some (Json.str s) => Except.ok s
  | _ => Except.error PyErr.validationError

/-- Pydantic validation of one `DetailedTip` element: a dict with the
three required string fields (extra keys are ignored by default). -/
def expectTip (v : Json) : Except PyErr DetailedTip :=
  match v with
  | Json.obj m =>
    (match reqStrField m ("original_timestamp"),
           reqStrField m ("transcribed_timestamp"),
           reqStrField m ("suggestion") with
     | Except.ok a, Except.ok b, Except.ok c => Except.ok ⟨a, b, c⟩
     | _, _, _ => Except.error PyErr.validationError)
  | _ => Except.error PyErr.validationError

/-- Elementwise pydantic validation of a list of tips. -/
def tipListE : List Json → Except PyErr (List DetailedTip)
  | [] => Except.ok []
  | v :: vs =>
    match expectTip v, tipListE vs with
    | Except.ok t, Except.ok rest => Except.ok (t :: rest)
    | _, _ => Except.error PyErr.validationError

/-- Pydantic validation of a `List[DetailedTip]` field. -/
def expectTipList (v : Json) : Except PyErr (List DetailedTip) :=
  match v with
  | Json.arr xs => tipListE xs
  | _ => Except.error PyErr.validationError

/-- `FeedbackReport(**coerced)` at src/app.py line 284: pydantic
validates the remaining loosely-typed fields. -/
def validateMid (c : CoercedReport) : Except PyErr FeedbackReport :=
  match expectStr c.overall_feedback,
        expectStrList c.repetitive_words_list,
        expectTipList c.detailed_tips with
  | Except.ok ofb, Except.ok rwl, Except.ok tips =>
    Except.ok
      ⟨c.score, ofb, c.word_repetition_score, c.word_repetition_count,
       c.speaking_pace_score, c.speaking_pace_count, c.filler_words_score,
       c.voice_clarity_score, c.filler_words_count, rwl, tips⟩
  | _, _, _ => Except.error PyErr.validationError

/-- src/app.py lines 264-284: `feedback_data.get(...)` requires a dict
(`.get` on any other parse result raises `AttributeError`, caught by the
catch-all handler), then the coercion and the pydantic validation run. -/
def coerceReport (d : Json) : Except PyErr FeedbackReport :=
  match d with
  | Json.obj m =>
    (match coercedDict m with
     | Except.ok c => validateMid c
     | Except.error e => Except.error e)
  | _ => Except.error PyErr.attributeError

/-- The fallback report built at src/app.py lines 292-304. -/
def defaultFeedbackReport : FeedbackReport :=
  ⟨0, ("Could not generate valid feedback due to an API or parsing error."),
   0, 0, 0, 0, 0, 0, 0, [], []⟩

/-- The try-block of `get_feedback_from_gemini` (src/app.py lines
255-285): provider call, normalization, `json.loads`, coercion,
validation, as one exception-carrying pipeline. -/
def feedbackPipeline (resp : Except Unit String) : Except PyErr FeedbackReport :=
  match resp with
  | Except.error _ => Except.error PyErr.apiError
  | Except.ok txt =>
    match parseJson (normalizeResponse txt) with
    | none => Except.error PyErr.jsonDecodeError
    | some j => coerceReport j

/-- src/app.py lines 255-304: any exception from the pipeline is caught
(lines 286-289) and replaced by the fallback report (lines 292-304). -/
def feedbackCore (resp : Except Unit String) : FeedbackReport :=
  match feedbackPipeline resp with
  | Except.ok r => r
  | Except.error _ => defaultFeedbackReport

/-- `get_feedback_from_gemini` (src/app.py lines 197-304).  The prompt
construction at line 206 subscripts `transcription_data['transcription']`
outside the try-block, so that lookup can raise out of the function; the
rest never fails.  `original_script` only feeds the prompt and does not
influence the modelled result. -/
def get_feedback_from_gemini (original_script transcription_data : Json)
    (resp : Except Unit String) : Except PyErr FeedbackReport :=
  match pyGetItem transcription_data ("transcription") with
  | Except.error e => Except.error e
  | Except.ok _ =>
    let _ := original_script
    Except.ok (feedbackCore resp)

/-- The fallback transcription of `transcribe_audio_bytes`
(src/app.py lines 189-194). -/
def fallbackTranscription : Json :=
  Json.obj
    [(("transcription"),
      Json.arr
        [Json.obj [(("timestamp"), Json.str ("00:00-00:05")),
                   (("line"), Json.str ("Audio transcription failed."))],
         Json.obj [(("timestamp"), Json.str ("00:06-00:11")),
                   (("line"), Json.str ("Please check the audio file format and your API setup."))]])]

/-- `transcribe_audio_bytes` (src/app.py lines 168-194): normalize and
parse the provider text; any raised exception (provider call or
`json.loads`) yields the fallback transcription.  The audio bytes and
MIME type only feed the provider call and are part of the modelled
response. -/
def transcribe_audio_bytes (resp : Except Unit String) : Json :=
  match resp with
  | Except.error _ => fallbackTranscription
  | Except.ok txt =>
    match parseJson (normalizeResponse txt) with
    | some d => d
    | none => fallbackTranscription

/-- The fallback script of `generate_script_from_topic`
(src/app.py lines 85-91). -/
def defaultScript : Json :=
  Json.obj
    [(("title"), Json.str ("Default Topic")),
     (("script"),
      Json.arr
        [Json.obj [(("timestamp"), Json.str ("00:00-00:05")),
                   (("line"), Json.str ("API call failed. This is a default script."))],
         Json.obj [(("timestamp"), Json.str ("00:06-00:12")),
                   (("line"), Json.str ("Please check your API key and network connection."))]])]

/-- Python dict item assignment `d[k] = v`, modelled on the
last-occurrence-wins association list by appending the new binding. -/
def dictSet (m : List (String × Json)) (k : String) (v : Json) : List (String × Json) :=
  m ++ [(k, v)]

/-- `generate_script_from_topic` (src/app.py lines 51-91): on success
parse the normalized text and attach the synthesized title
(`data['title'] = f"Presentation on {topic}"`; item assignment on a
non-dict raises `TypeError`, caught by the same handler); on any raised
exception return the fallback script.  The prompt built from `topic` and
`duration` only feeds the provider call. -/
def generate_script_from_topic (topic : String) (duration : Int)
    (resp : Except Unit String) : Json :=
  let _ := duration
  match resp with
  | Except.error _ => defaultScript
  | Except.ok txt =>
    match parseJson (normalizeResponse txt) with
    | none => defaultScript
    | some (Json.obj m) => Json.obj (dictSet m ("title") (Json.str (("Presentation on ") ++ topic)))
    | some _ => defaultScript

/-- `api_generate_script` (src/app.py lines 416-423).  The request field
`duration` is `Option (Option Int)`: `none` is an absent field (pydantic
fills the declared default `3`), `some none` is an explicit JSON `null`,
`some (some d)` is an integer.  The handler then applies
`payload.duration or 3`. -/
def api_generate_script (topic : String) (durationField : Option (Option Int))
    (resp : Except Unit String) : Json :=
  let payloadDuration : Option Int :=
    match durationField with
    | none => some 3
    | some v => v
  generate_script_from_topic topic
    (match payloadDuration with
     | none => 3
     | some d => if d = 0 then 3 else d)
    resp

/-- The defensive parse of `original_script_json` in `api_analyze`
(src/app.py lines 431-438): a parse failure or an `AttributeError` from
`.get` on a non-dict degrades to the empty list; a top-level JSON array
is used as-is; a dict contributes its `script` value (defaulting to the
empty list). -/
def parseOriginalScript (s : String) : Json :=
  match parseJson s with
  | none => Json.arr []
  | some (Json.arr xs) => Json.arr xs
  | some (Json.obj m) => (dictGet m ("script")).getD (Json.arr [])
  | some _ => Json.arr []

/-- `api_analyze` (src/app.py lines 425-454): parse the original script
defensively, transcribe, then generate feedback.  Persisting
`speech.wav` and the MIME-type guess are I/O side effects that do not
influence the JSON result.  The final
`json.loads(feedback.model_dump_json())` serialization round-trip is the
identity on the report. -/
def api_analyze (scriptJson : String) (trResp fbResp : Except Unit String) :
    Except PyErr FeedbackReport :=
  get_feedback_from_gemini (parseOriginalScript scriptJson)
    (transcribe_audio_bytes trResp) fbResp

/-- The fixed CORS allow-list (src/app.py lines 344-352). -/
def ALLOWED_ORIGINS : List String :=
  [("https://frontend-53528.web.app"),
   ("https://frontend-53528.firebaseapp.com"),
   ("https://backend-0d8r.onrender.com"),
   ("http://localhost:5173"),
   ("http://127.0.0.1:5173"),
   ("http://localhost:3000"),
   ("http://127.0.0.1:3000")]

/-- The preflight response built by the explicit OPTIONS handlers. -/
structure CorsPreflight where
  status : Nat
  allowOrigin : String
  allowMethods : String
  allowHeaders : String
  maxAge : String
  allowCredentials : String
deriving DecidableEq

/-- `options_generate_script` (src/app.py lines 372-391): echo an
allow-listed (and truthy) Origin header, else fall back to
`ALLOWED_ORIGINS[0] if ALLOWED_ORIGINS else "*"`. -/
def options_generate_script (origin : Option String) : CorsPreflight :=
  let allowOrigin :=
    match origin with
    | some o =>
      if o ≠ "" ∧ o ∈ ALLOWED_ORIGINS then o
      else (match ALLOWED_ORIGINS with | x :: _ => x | [] => ("*"))
    | none => (match ALLOWED_ORIGINS with | x :: _ => x | [] => ("*"))
  ⟨200, allowOrigin, ("POST, OPTIONS"), ("Content-Type, Authorization"), ("3600"), ("true")⟩

/-- `options_analyze` (src/app.py lines 395-414): the same logic,
duplicated in the source. -/
def options_analyze (origin : Option String) : CorsPreflight :=
  let allowOrigin :=
    match origin with
    | some o =>
      if o ≠ "" ∧ o ∈ ALLOWED_ORIGINS then o
      else (match ALLOWED_ORIGINS with | x :: _ => x | [] => ("*"))
    | none => (match ALLOWED_ORIGINS with | x :: _ => x | [] => ("*"))
  ⟨200, allowOrigin, ("POST, OPTIONS"), ("Content-Type, Authorization"), ("3600"), ("true")⟩

/-
Spec-side definitions for the refinement claims.  These follow the
wording of the specification (section 4.3), not the source, and the
refinement theorems below compare the source-derived coercion against
them.
-/

/-- Spec wording for a numeric score field: defaults to 0.0 if absent or
falsy, otherwise an explicit cast to floating point. -/
def scoreFieldSpec (m : List (String × Json)) (k : String) : Option Rat :=
  match dictGet m k with
  | none => some 0
  | some v => if pyTruthy v = true then pyFloat v else some 0

/-- Spec wording for a count field: defaults to 0 if absent or falsy,
otherwise an explicit cast to integer. -/
def countFieldSpec (m : List (String × Json)) (k : String) : Option Int :=
  match dictGet m k with
  | none => some 0
  | some v => if pyTruthy v = true then pyInt v else some 0

/-- Spec wording for a list field: defaults to the empty list when
absent, forced to empty when present but not a list. -/
def listFieldSpec (m : List (String × Json)) (k : String) : List Json :=
  match dictGet m k with
  | some (Json.arr xs) => xs
  | _ => []

/- Basic computation lemmas about the Python-semantics helpers. -/

theorem pyFloatE_zero : pyFloatE (pyOr (Json.num 0) (Json.num 0)) = Except.ok 0 := rfl

theorem pyIntE_zero : pyIntE (pyOr (Json.num 0) (Json.num 0)) = Except.ok 0 := rfl

theorem ratTrunc_intCast (n : Int) : ratTrunc ((n : Int) : Rat) = n := by
  unfold ratTrunc
  rw [Rat.intCast_num, Rat.intCast_den]
  exact Int.tdiv_one n

theorem pyFloatE_or_num (q : Rat) :
    pyFloatE (pyOr (Json.num q) (Json.num 0)) = Except.ok q := by
  by_cases h : q = 0
  · subst h; rfl
  · simp [pyOr, pyTruthy, h, pyFloatE, pyFloat]

theorem pyIntE_or_int (n : Int) :
    pyIntE (pyOr (Json.num ((n : Int) : Rat)) (Json.num 0)) = Except.ok n := by
  by_cases h : n = 0
  · subst h; simp only [Int.cast_zero]; rfl
  · have hq : ((n : Int) : Rat) ≠ 0 := Int.cast_ne_zero.mpr h
    simp [pyOr, pyTruthy, hq, pyIntE, pyInt, ratTrunc_intCast]

theorem pyOr_str_right (s : String) :
    pyOr (Json.str s) (Json.str ("")) = Json.str s := by
  by_cases h : s = ""
  · subst h; rfl
  · simp [pyOr, pyTruthy, h]

theorem listFix_or_arr (xs : List Json) :
    listFix (pyOr (Json.arr xs) (Json.arr [])) = Json.arr xs := by
  cases xs <;> rfl

theorem listFix_spec (m : List (String × Json)) (k : String) :
    listFix (pyOr (dictGetD m k Json.null) (Json.arr [])) = Json.arr (listFieldSpec m k) := by
  unfold dictGetD listFieldSpec
  cases hd : dictGet m k with
  | none => rfl
  | some v =>
    cases v with
    | arr xs => cases xs <;> rfl
    | null => rfl
    | bool b => cases b <;> rfl
    | num q =>
      by_cases hq : q = 0
      · subst hq; rfl
      · simp [Option.getD, pyOr, pyTruthy, hq, listFix]
    | str s =>
      by_cases hs : s = ""
      · subst hs; rfl
      · simp [Option.getD, pyOr, pyTruthy, hs, listFix]
    | obj o => cases o <;> rfl

theorem scoreFieldSpec_of_ok {m : List (String × Json)} {k : String} {q : Rat}
    (h : pyFloatE (pyOr (dictGetD m k (Json.num 0)) (Json.num 0)) = Except.ok q) :
    scoreFieldSpec m k = some q := by
  unfold dictGetD at h
  unfold scoreFieldSpec
  cases hd : dictGet m k with
  | none =>
    rw [hd] at h
    have h0 : (Except.ok (0 : Rat) : Except PyErr Rat) = Except.ok q := pyFloatE_zero.symm.trans h
    injection h0 with h0
    rw [h0]
  | some v =>
    rw [hd, Option.getD_some] at h
    show (if pyTruthy v = true then pyFloat v else some 0) = some q
    by_cases ht : pyTruthy v = true
    · rw [if_pos ht]
      rw [pyOr, if_pos ht] at h
      unfold pyFloatE at h
      cases hf : pyFloat v with
      | none => rw [hf] at h; exact Except.noConfusion h
      | some q' => rw [hf] at h; injection h with h; rw [h]
    · rw [if_neg ht]
      rw [pyOr, if_neg ht] at h
      have h0 : (Except.ok (0 : Rat) : Except PyErr Rat) = Except.ok q := by
        have : pyFloatE (Json.num 0) = Except.ok 0 := rfl
        exact this.symm.trans h
      injection h0 with h0
      rw [h0]

theorem countFieldSpec_of_ok {m : List (String × Json)} {k : String} {n : Int}
    (h : pyIntE (pyOr (dictGetD m k (Json.num 0)) (Json.num 0)) = Except.ok n) :
    countFieldSpec m k = some n := by
  unfold dictGetD at h
  unfold countFieldSpec
  cases hd : dictGet m k with
  | none =>
    rw [hd] at h
    have h0 : (Except.ok (0 : Int) : Except PyErr Int) = Except.ok n := pyIntE_zero.symm.trans h
    injection h0 with h0
    rw [h0]
  | some v =>
    rw [hd, Option.getD_some] at h
    show (if pyTruthy v = true then pyInt v else some 0) = some n
    by_cases ht : pyTruthy v = true
    · rw [if_pos ht]
      rw [pyOr, if_pos ht] at h
      unfold pyIntE at h
      cases hf : pyInt v with
      | none => rw [hf] at h; exact Except.noConfusion h
      | some n' => rw [hf] at h; injection h with h; rw [h]
    · rw [if_neg ht]
      rw [pyOr, if_neg ht] at h
      have h0 : (Except.ok (0 : Int) : Except PyErr Int) = Except.ok n := by
        have : pyIntE (Json.num 0) = Except.ok 0 := rfl
        exact this.symm.trans h
      injection h0 with h0
      rw [h0]

/-- Extraction of the per-field facts from a successful run of the
coercion block. -/
theorem coercedDict_ok_fields {m : List (String × Json)} {c : CoercedReport}
    (h : coercedDict m = Except.ok c) :
    pyFloatE (pyOr (dictGetD m ("score") (Json.num 0)) (Json.num 0)) = Except.ok c.score ∧
    pyFloatE (pyOr (dictGetD m ("word_repetition_score") (Json.num 0)) (Json.num 0)) = Except.ok c.word_repetition_score ∧
    pyIntE (pyOr (dictGetD m ("word_repetition_count") (Json.num 0)) (Json.num 0)) = Except.ok c.word_repetition_count ∧
    pyFloatE (pyOr (dictGetD m ("speaking_pace_score") (Json.num 0)) (Json.num 0)) = Except.ok c.speaking_pace_score ∧
    pyIntE (pyOr (dictGetD m ("speaking_pace_count") (Json.num 0)) (Json.num 0)) = Except.ok c.speaking_pace_count ∧
    pyFloatE (pyOr (dictGetD m ("filler_words_score") (Json.num 0)) (Json.num 0)) = Except.ok c.filler_words_score ∧
    pyFloatE (pyOr (dictGetD m ("voice_clarity_score") (Json.num 0)) (Json.num 0)) = Except.ok c.voice_clarity_score ∧
    pyIntE (pyOr (dictGetD m ("filler_words_count") (Json.num 0)) (Json.num 0)) = Except.ok c.filler_words_count ∧
    c.overall_feedback = pyOr (dictGetD m ("overall_feedback") (Json.str (""))) (Json.str ("")) ∧
    c.repetitive_words_list = listFix (pyOr (dictGetD m ("repetitive_words_list") Json.null) (Json.arr [])) ∧
    c.detailed_tips = listFix (pyOr (dictGetD m ("detailed_tips") Json.null) (Json.arr [])) := by
  unfold coercedDict at h
  split at h
  next score wrs wrc sps spc fws vcs fwc h1 h2 h3 h4 h5 h6 h7 h8 =>
    cases h
    exact ⟨h1, h2, h3, h4, h5, h6, h7, h8, rfl, rfl, rfl⟩
  next => exact Except.noConfusion h

/-- Extraction of the per-field facts from a successful pydantic
validation. -/
theorem validateMid_ok_fields {c : CoercedReport} {r : FeedbackReport}
    (h : validateMid c = Except.ok r) :
    r.score = c.score ∧
    r.word_repetition_score = c.word_repetition_score ∧
    r.word_repetition_count = c.word_repetition_count ∧
    r.speaking_pace_score = c.speaking_pace_score ∧
    r.speaking_pace_count = c.speaking_pace_count ∧
    r.filler_words_score = c.filler_words_score ∧
    r.voice_clarity_score = c.voice_clarity_score ∧
    r.filler_words_count = c.filler_words_count ∧
    expectStr c.overall_feedback = Except.ok r.overall_feedback ∧
    expectStrList c.repetitive_words_list = Except.ok r.repetitive_words_list ∧
    expectTipList c.detailed_tips = Except.ok r.detailed_tips := by
  unfold validateMid at h
  split at h
  next ofb rwl tips h1 h2 h3 =>
    cases h
    exact ⟨rfl, rfl, rfl, rfl, rfl, rfl, rfl, rfl, h1, h2, h3⟩
  next => exact Except.noConfusion h

/-
Round-trip machinery for the idempotence claim: the field values of a
`FeedbackReport`, re-encoded as the JSON mapping that
`json.loads(report.model_dump_json())` would produce.
-/

/-- A `DetailedTip` as a JSON object. -/
def tipToJson (t : DetailedTip) : Json :=
  Json.obj [(("original_timestamp"), Json.str t.original_timestamp),
            (("transcribed_timestamp"), Json.str t.transcribed_timestamp),
            (("suggestion"), Json.str t.suggestion)]

/-- The field values of a `FeedbackReport` as JSON mapping entries. -/
def reportEntries (r : FeedbackReport) : List (String × Json) :=
  [(("score"), Json.num r.score),
   (("overall_feedback"), Json.str r.overall_feedback),
   (("word_repetition_score"), Json.num r.word_repetition_score),
   (("word_repetition_count"), Json.num ((r.word_repetition_count : Int) : Rat)),
   (("speaking_pace_score"), Json.num r.speaking_pace_score),
   (("speaking_pace_count"), Json.num ((r.speaking_pace_count : Int) : Rat)),
   (("filler_words_score"), Json.num r.filler_words_score),
   (("voice_clarity_score"), Json.num r.voice_clarity_score),
   (("filler_words_count"), Json.num ((r.filler_words_count : Int) : Rat)),
   (("repetitive_words_list"), Json.arr (r.repetitive_words_list.map Json.str)),
   (("detailed_tips"), Json.arr (r.detailed_tips.map tipToJson))]

/-- A `FeedbackReport` re-encoded as a JSON document. -/
def reportToJson (r : FeedbackReport) : Json :=
  Json.obj (reportEntries r)

theorem expectTip_tipToJson (t : DetailedTip) : expectTip (tipToJson t) = Except.ok t := rfl

theorem strListE_map (l : List String) : strListE (l.map Json.str) = Except.ok l := by
  induction l with
  | nil => rfl
  | cons a l ih =>
    show strListE (Json.str a :: l.map Json.str) = Except.ok (a :: l)
    unfold strListE
    rw [ih]
    rfl

theorem tipListE_map (l : List DetailedTip) : tipListE (l.map tipToJson) = Except.ok l := by
  induction l with
  | nil => rfl
  | cons a l ih =>
    show tipListE (tipToJson a :: l.map tipToJson) = Except.ok (a :: l)
    unfold tipListE
    rw [ih, expectTip_tipToJson]

/-- Re-coercing the encoded field values of any report succeeds and
reproduces the report. -/
theorem coerceReport_reportToJson (r : FeedbackReport) :
    coerceReport (reportToJson r) = Except.ok r := by
  have e1 : dictGetD (reportEntries r) ("score") (Json.num 0) = Json.num r.score := rfl
  have e2 : dictGetD (reportEntries r) ("word_repetition_score") (Json.num 0) = Json.num r.word_repetition_score := rfl
  have e3 : dictGetD (reportEntries r) ("word_repetition_count") (Json.num 0) = Json.num ((r.word_repetition_count : Int) : Rat) := rfl
  have e4 : dictGetD (reportEntries r) ("speaking_pace_score") (Json.num 0) = Json.num r.speaking_pace_score := rfl
  have e5 : dictGetD (reportEntries r) ("speaking_pace_count") (Json.num 0) = Json.num ((r.speaking_pace_count : Int) : Rat) := rfl
  have e6 : dictGetD (reportEntries r) ("filler_words_score") (Json.num 0) = Json.num r.filler_words_score := rfl
  have e7 : dictGetD (reportEntries r) ("voice_clarity_score") (Json.num 0) = Json.num r.voice_clarity_score := rfl
  have e8 : dictGetD (reportEntries r) ("filler_words_count") (Json.num 0) = Json.num ((r.filler_words_count : Int) : Rat) := rfl
  have e9 : dictGetD (reportEntries r) ("overall_feedback") (Json.str ("")) = Json.str r.overall_feedback := rfl
  have e10 : dictGetD (reportEntries r) ("repetitive_words_list") Json.null = Json.arr (r.repetitive_words_list.map Json.str) := rfl
  have e11 : dictGetD (reportEntries r) ("detailed_tips") Json.null = Json.arr (r.detailed_tips.map tipToJson) := rfl
  show (match coercedDict (reportEntries r) with
        | Except.ok c => validateMid c
        | Except.error e => Except.error e) = Except.ok r
  unfold coercedDict
  simp only [e1, e2, e3, e4, e5, e6, e7, e8, e9, e10, e11,
    pyFloatE_or_num, pyIntE_or_int, pyOr_str_right, listFix_or_arr]
  show validateMid
      ⟨r.score, Json.str r.overall_feedback, r.word_repetition_score,
       r.word_repetition_count, r.speaking_pace_score, r.speaking_pace_count,
       r.filler_words_score, r.voice_clarity_score, r.filler_words_count,
       Json.arr (r.repetitive_words_list.map Json.str),
       Json.arr (r.detailed_tips.map tipToJson)⟩ = Except.ok r
  unfold validateMid
  simp only [expectStrList, expectTipList, strListE_map, tipListE_map]
  rfl

/-- Claim C1: for every feedback payload (any provider outcome and any
text, JSON or not, of any shape), the guarded block of
`get_feedback_from_gemini` produces a `FeedbackReport` and never lets an
exception escape: either the pipeline succeeded and its report is
returned, or some exception occurred during the provider call, JSON
decoding, coercion or validation and the returned report is the
canonical default (score 0.0, the explanatory sentence, all other
scores and counts zero, empty lists). -/
theorem feedback_report_total_with_canonical_default (resp : Except Unit String) :
    feedbackPipeline resp = Except.ok (feedbackCore resp) ∨
    ((feedbackPipeline resp).isOk = false ∧
      feedbackCore resp =
        ⟨0, ("Could not generate valid feedback due to an API or parsing error."),
         0, 0, 0, 0, 0, 0, 0, [], []⟩) := by
  cases h : feedbackPipeline resp with
  | ok r =>
    left
    unfold feedbackCore
    rw [h]
  | error e =>
    right
    constructor
    · rfl
    · unfold feedbackCore
      rw [h]
      rfl

/-- Claim C2: on every parsed feedback mapping on which the coercion
block succeeds, its result refines the spec's field-by-field policy:
each score is `float(value)` with default 0.0 on an absent or falsy key,
each count is `int(value)` with default 0, `overall_feedback` defaults
to the empty string, and the two list fields default to the empty list
and are forced to the empty list when the present value is not a list. -/
theorem report_coercer_field_policy
    (m : List (String × Json)) (c : CoercedReport)
    (h : coercedDict m = Except.ok c) :
    scoreFieldSpec m ("score") = some c.score ∧
    scoreFieldSpec m ("word_repetition_score") = some c.word_repetition_score ∧
    scoreFieldSpec m ("speaking_pace_score") = some c.speaking_pace_score ∧
    scoreFieldSpec m ("filler_words_score") = some c.filler_words_score ∧
    scoreFieldSpec m ("voice_clarity_score") = some c.voice_clarity_score ∧
    countFieldSpec m ("word_repetition_count") = some c.word_repetition_count ∧
    countFieldSpec m ("speaking_pace_count") = some c.speaking_pace_count ∧
    countFieldSpec m ("filler_words_count") = some c.filler_words_count ∧
    (dictGet m ("overall_feedback") = none → c.overall_feedback = Json.str ("")) ∧
    (∀ v, dictGet m ("overall_feedback") = some v → pyTruthy v = false →
      c.overall_feedback = Json.str ("")) ∧
    c.repetitive_words_list = Json.arr (listFieldSpec m ("repetitive_words_list")) ∧
    c.detailed_tips = Json.arr (listFieldSpec m ("detailed_tips")) := by
  obtain ⟨h1, h2, h3, h4, h5, h6, h7, h8, h9, h10, h11⟩ := coercedDict_ok_fields h
  refine ⟨scoreFieldSpec_of_ok h1, scoreFieldSpec_of_ok h2, scoreFieldSpec_of_ok h4,
    scoreFieldSpec_of_ok h6, scoreFieldSpec_of_ok h7,
    countFieldSpec_of_ok h3, countFieldSpec_of_ok h5, countFieldSpec_of_ok h8,
    ?_, ?_, ?_, ?_⟩
  · intro h0
    rw [h9]
    unfold dictGetD
    rw [h0]
    rfl
  · intro v hv hf
    rw [h9]
    unfold dictGetD
    rw [hv]
    show pyOr v (Json.str ("")) = Json.str ("")
    unfold pyOr
    rw [hf]
    rfl
  · rw [h10, listFix_spec]
  · rw [h11, listFix_spec]

/-- Witness for C2 at a concrete mapping. -/
theorem report_coercer_field_policy_witness :
    scoreFieldSpec [(("score"), Json.num 7), (("repetitive_words_list"), Json.arr [Json.str ("um")])] ("score") = some 7 :=
  (report_coercer_field_policy
    [(("score"), Json.num 7), (("repetitive_words_list"), Json.arr [Json.str ("um")])]
    ⟨7, Json.str (""), 0, 0, 0, 0, 0, 0, 0, Json.arr [Json.str ("um")], Json.arr []⟩ rfl).1

/-- Claim C3: the coercion is idempotent.  Whenever the Report Coercer
produces a report from some feedback document, re-coercing the encoded
field values of that report succeeds and yields a report with identical
field values. -/
theorem report_coercion_idempotent (d : Json) (r : FeedbackReport)
    (_h : coerceReport d = Except.ok r) :
    coerceReport (reportToJson r) = Except.ok r :=
  coerceReport_reportToJson r

/-- Witness for C3 at a concrete document. -/
theorem report_coercion_idempotent_witness :
    coerceReport (reportToJson defaultFeedbackReport) = Except.ok defaultFeedbackReport :=
  report_coercion_idempotent
    (Json.obj [(("overall_feedback"),
      Json.str ("Could not generate valid feedback due to an API or parsing error."))])
    defaultFeedbackReport rfl

/-- Whether a JSON document is an object (a Python dict). -/
def Json.isObj : Json → Bool
  | Json.obj _ => true
  | _ => false

/-- Counterexample for C4: with the provider unreachable, the script
returned for topic "Intro to Rust" is titled "Default Topic", not
"Presentation on Intro to Rust" as the claim states. -/
theorem default_script_title_counterexample :
    pyGetItem (api_generate_script ("Intro to Rust") (some (some 5)) (Except.error ())) ("title")
      = Except.ok (Json.str ("Default Topic")) ∧
    ("Default Topic" : String) ≠ ("Presentation on Intro to Rust") := by
  constructor
  · rfl
  · decide

/-- Claim C4 (amended): for every topic and duration, when the provider
call raises, POST /generate_script returns the fixed two-line default
script whose title is "Default Topic" (the "Presentation on " + topic
title is attached only to successful responses); its first entry is
timestamp "00:00-00:05" with line "API call failed. This is a default
script.". -/
theorem default_script_on_provider_failure (topic : String)
    (durationField : Option (Option Int)) :
    api_generate_script topic durationField (Except.error ()) = defaultScript ∧
    pyGetItem defaultScript ("title") = Except.ok (Json.str ("Default Topic")) ∧
    pyGetItem defaultScript ("script") = Except.ok (Json.arr
      [Json.obj [(("timestamp"), Json.str ("00:00-00:05")),
                 (("line"), Json.str ("API call failed. This is a default script."))],
       Json.obj [(("timestamp"), Json.str ("00:06-00:12")),
                 (("line"), Json.str ("Please check your API key and network connection."))]]) := by
  refine ⟨?_, rfl, rfl⟩
  cases durationField with
  | none => rfl
  | some v => cases v <;> rfl

/-- Claim C8: both OPTIONS preflight handlers return status 200 with the
fixed methods, headers, max age and credentials flag, and the
Access-Control-Allow-Origin header echoes the request Origin exactly
when it is present and allow-listed, and is otherwise the first entry of
the allow-list. -/
theorem options_preflight_cors_policy (origin : Option String) :
    options_analyze origin = options_generate_script origin ∧
    (options_generate_script origin).status = 200 ∧
    (options_generate_script origin).allowMethods = ("POST, OPTIONS") ∧
    (options_generate_script origin).allowHeaders = ("Content-Type, Authorization") ∧
    (options_generate_script origin).maxAge = ("3600") ∧
    (options_generate_script origin).allowCredentials = ("true") ∧
    ALLOWED_ORIGINS.head? = some ("https://frontend-53528.web.app") ∧
    (options_generate_script origin).allowOrigin =
      (match origin with
       | some o => if o ∈ ALLOWED_ORIGINS then o else ("https://frontend-53528.web.app")
       | none => ("https://frontend-53528.web.app")) := by
  refine ⟨rfl, rfl, rfl, rfl, rfl, rfl, rfl, ?_⟩
  cases origin with
  | none => rfl
  | some o =>
    show (if o ≠ "" ∧ o ∈ ALLOWED_ORIGINS then o
          else (match ALLOWED_ORIGINS with | x :: _ => x | [] => ("*")))
        = (if o ∈ ALLOWED_ORIGINS then o else ("https://frontend-53528.web.app"))
    by_cases hm : o ∈ ALLOWED_ORIGINS
    · have ho : o ≠ "" := by
        intro he
        subst he
        exact absurd hm (by decide)
      rw [if_pos ⟨ho, hm⟩, if_pos hm]
    · rw [if_neg (fun hc => hm hc.2), if_neg hm]
      rfl

/-- Claim C9: the duration passed to script generation is the request's
duration field when truthy, and 3 when the field is absent, null or 0;
the topic is passed through unchanged. -/
theorem generate_script_duration_defaulting (topic : String)
    (durationField : Option (Option Int)) (resp : Except Unit String) :
    api_generate_script topic durationField resp =
      generate_script_from_topic topic
        (match durationField with
         | some (some d) => if d = 0 then 3 else d
         | _ => 3) resp := by
  cases durationField with
  | none => rfl
  | some v => cases v <;> rfl

/-- Claim C10: when the provider's feedback response parses as valid
JSON that is not an object (array, string, number, boolean or null),
field lookup on it raises and is caught, so `get_feedback_from_gemini`
returns the canonical default report. -/
theorem non_object_feedback_yields_default (txt : String) (j : Json)
    (h1 : parseJson (normalizeResponse txt) = some j)
    (h2 : j.isObj = false) :
    feedbackCore (Except.ok txt) = defaultFeedbackReport := by
  have hp : feedbackPipeline (Except.ok txt) = coerceReport j := by
    show (match parseJson (normalizeResponse txt) with
          | none => Except.error PyErr.jsonDecodeError
          | some j => coerceReport j) = coerceReport j
    rw [h1]
  unfold feedbackCore
  rw [hp]
  cases j with
  | obj m => exact absurd h2 (by simp [Json.isObj])
  | null => rfl
  | bool b => rfl
  | num q => rfl
  | str s => rfl
  | arr xs => rfl

/-- Witness for C10 at a concrete non-object payload. -/
theorem non_object_feedback_yields_default_witness :
    feedbackCore (Except.ok ("[1, 2]")) = defaultFeedbackReport :=
  non_object_feedback_yields_default ("[1, 2]") (Json.arr [Json.num 1, Json.num 2]) (by rfl) rfl

/-
Range-invariant machinery for the FeedbackReport data-model claim.
-/

/-- The parsed feedback payload underlying a provider response. -/
def respParsed (resp : Except Unit String) : Option Json :=
  match resp with
  | Except.ok t => parseJson (normalizeResponse t)
  | Except.error _ => none

/-- A score field value that, when present, truthy and coercible, lies
on the 0-10 scale. -/
def scoreValOk (o : Option Json) : Prop :=
  ∀ v, o = some v → pyTruthy v = true → ∀ q, pyFloat v = some q → 0 ≤ q ∧ q ≤ 10

/-- A count field value that, when present, truthy and coercible, is
non-negative. -/
def countValOk (o : Option Json) : Prop :=
  ∀ v, o = some v → pyTruthy v = true → ∀ n, pyInt v = some n → 0 ≤ n

/-- All numeric fields of a feedback payload are in range. -/
def payloadInRange (m : List (String × Json)) : Prop :=
  scoreValOk (dictGet m ("score")) ∧
  scoreValOk (dictGet m ("word_repetition_score")) ∧
  scoreValOk (dictGet m ("speaking_pace_score")) ∧
  scoreValOk (dictGet m ("filler_words_score")) ∧
  scoreValOk (dictGet m ("voice_clarity_score")) ∧
  countValOk (dictGet m ("word_repetition_count")) ∧
  countValOk (dictGet m ("speaking_pace_count")) ∧
  countValOk (dictGet m ("filler_words_count"))

/-- The data-model invariant claimed for `FeedbackReport`: scores on the
0-10 scale and non-negative counts. -/
def reportInRange (r : FeedbackReport) : Prop :=
  (0 ≤ r.score ∧ r.score ≤ 10) ∧
  (0 ≤ r.word_repetition_score ∧ r.word_repetition_score ≤ 10) ∧
  (0 ≤ r.speaking_pace_score ∧ r.speaking_pace_score ≤ 10) ∧
  (0 ≤ r.filler_words_score ∧ r.filler_words_score ≤ 10) ∧
  (0 ≤ r.voice_clarity_score ∧ r.voice_clarity_score ≤ 10) ∧
  0 ≤ r.word_repetition_count ∧ 0 ≤ r.speaking_pace_count ∧ 0 ≤ r.filler_words_count

theorem defaultReport_in_range : reportInRange defaultFeedbackReport := by
  unfold reportInRange
  exact ⟨⟨by decide, by decide⟩, ⟨by decide, by decide⟩, ⟨by decide, by decide⟩,
    ⟨by decide, by decide⟩, ⟨by decide, by decide⟩, by decide, by decide, by decide⟩

theorem scoreField_in_range {m : List (String × Json)} {k : String} {q : Rat}
    (hs : scoreValOk (dictGet m k))
    (h : pyFloatE (pyOr (dictGetD m k (Json.num 0)) (Json.num 0)) = Except.ok q) :
    0 ≤ q ∧ q ≤ 10 := by
  unfold dictGetD at h
  cases hd : dictGet m k with
  | none =>
    rw [hd] at h
    simp only [Option.getD_none] at h
    have h0 : (Except.ok (0 : Rat) : Except PyErr Rat) = Except.ok q := pyFloatE_zero.symm.trans h
    injection h0 with h0
    subst h0
    exact ⟨by decide, by decide⟩
  | some v =>
    rw [hd] at h
    simp only [Option.getD_some] at h
    by_cases ht : pyTruthy v = true
    · rw [pyOr, if_pos ht] at h
      unfold pyFloatE at h
      cases hf : pyFloat v with
      | none => rw [hf] at h; exact Except.noConfusion h
      | some q' =>
        rw [hf] at h
        injection h with h
        subst h
        exact hs v hd ht _ hf
    · rw [pyOr, if_neg ht] at h
      have hz : pyFloatE (Json.num 0) = Except.ok 0 := rfl
      have h0 : (Except.ok (0 : Rat) : Except PyErr Rat) = Except.ok q := hz.symm.trans h
      injection h0 with h0
      subst h0
      exact ⟨by decide, by decide⟩

theorem countField_in_range {m : List (String × Json)} {k : String} {n : Int}
    (hs : countValOk (dictGet m k))
    (h : pyIntE (pyOr (dictGetD m k (Json.num 0)) (Json.num 0)) = Except.ok n) :
    0 ≤ n := by
  unfold dictGetD at h
  cases hd : dictGet m k with
  | none =>
    rw [hd] at h
    simp only [Option.getD_none] at h
    have h0 : (Except.ok (0 : Int) : Except PyErr Int) = Except.ok n := pyIntE_zero.symm.trans h
    injection h0 with h0
    subst h0
    decide
  | some v =>
    rw [hd] at h
    simp only [Option.getD_some] at h
    by_cases ht : pyTruthy v = true
    · rw [pyOr, if_pos ht] at h
      unfold pyIntE at h
      cases hf : pyInt v with
      | none => rw [hf] at h; exact Except.noConfusion h
      | some n' =>
        rw [hf] at h
        injection h with h
        subst h
        exact hs v hd ht _ hf
    · rw [pyOr, if_neg ht] at h
      have hz : pyIntE (Json.num 0) = Except.ok 0 := rfl
      have h0 : (Except.ok (0 : Int) : Except PyErr Int) = Except.ok n := hz.symm.trans h
      injection h0 with h0
      subst h0
      decide

/-- Counterexample for C6: the payload `{"score": -5}` produces a
report whose score is -5, outside the claimed 0-10 scale (the coercion
performs no range validation). -/
theorem score_range_counterexample :
    (feedbackCore (Except.ok ("\x7b\"score\": -5\x7d"))).score < 0 ∧
    ¬ reportInRange (feedbackCore (Except.ok ("\x7b\"score\": -5\x7d"))) := by
  constructor
  · decide
  · intro hr
    exact absurd hr.1.1 (by decide)

/-- Claim C6 (amended): the coercion passes numeric values through
without range clamping, so the claimed invariant (scores on the 0-10
scale, non-negative counts) is not guaranteed in general; it does hold
whenever every present, truthy and coercible numeric value of the
payload is itself in range (in particular, absent or falsy fields
become 0 and the canonical default report satisfies the invariant). -/
theorem report_invariant_for_in_range_payloads (resp : Except Unit String)
    (h : ∀ m, respParsed resp = some (Json.obj m) → payloadInRange m) :
    reportInRange (feedbackCore resp) := by
  cases resp with
  | error u => exact defaultReport_in_range
  | ok txt =>
    cases hp : parseJson (normalizeResponse txt) with
    | none =>
      have hpipe : feedbackPipeline (Except.ok txt) = Except.error PyErr.jsonDecodeError := by
        show (match parseJson (normalizeResponse txt) with
              | none => Except.error PyErr.jsonDecodeError
              | some j => coerceReport j) = _
        rw [hp]
      unfold feedbackCore
      rw [hpipe]
      exact defaultReport_in_range
    | some j =>
      have hpipe : feedbackPipeline (Except.ok txt) = coerceReport j := by
        show (match parseJson (normalizeResponse txt) with
              | none => Except.error PyErr.jsonDecodeError
              | some j => coerceReport j) = _
        rw [hp]
      unfold feedbackCore
      rw [hpipe]
      cases j with
      | null => exact defaultReport_in_range
      | bool b => exact defaultReport_in_range
      | num q => exact defaultReport_in_range
      | str s => exact defaultReport_in_range
      | arr xs => exact defaultReport_in_range
      | obj m =>
        have hm : payloadInRange m := by
          refine h m ?_
          show parseJson (normalizeResponse txt) = some (Json.obj m)
          exact hp
        obtain ⟨hs1, hs2, hs3, hs4, hs5, hc1, hc2, hc3⟩ := hm
        show reportInRange (match coerceReport (Json.obj m) with
          | Except.ok r => r
          | Except.error _ => defaultFeedbackReport)
        cases hcr : coerceReport (Json.obj m) with
        | error e => exact defaultReport_in_range
        | ok r =>
          have hcr2 : (match coercedDict m with
              | Except.ok c => validateMid c
              | Except.error e => Except.error e) = Except.ok r := hcr
          clear hcr
          revert hcr2
          cases hcd : coercedDict m with
          | error e => intro hcr2; exact Except.noConfusion hcr2
          | ok c =>
            intro hcr2
            obtain ⟨g1, g2, g3, g4, g5, g6, g7, g8, _, _, _⟩ := coercedDict_ok_fields hcd
            obtain ⟨f1, f2, f3, f4, f5, f6, f7, f8, _, _, _⟩ := validateMid_ok_fields hcr2
            unfold reportInRange
            rw [f1, f2, f3, f4, f5, f6, f7, f8]
            exact ⟨scoreField_in_range hs1 g1, scoreField_in_range hs2 g2,
              scoreField_in_range hs3 g4, scoreField_in_range hs4 g6,
              scoreField_in_range hs5 g7, countField_in_range hc1 g3,
              countField_in_range hc2 g5, countField_in_range hc3 g8⟩

theorem payloadInRange_score7 : payloadInRange [(("score"), Json.num 7)] := by
  unfold payloadInRange
  refine ⟨?_, ?_, ?_, ?_, ?_, ?_, ?_, ?_⟩
  · intro v hv ht q hq
    have hv' : some (Json.num 7) = some v := hv
    injection hv' with hv2
    subst hv2
    have hq' : some (7 : Rat) = some q := hq
    injection hq' with hq2
    subst hq2
    exact ⟨by decide, by decide⟩
  all_goals intro v hv
  all_goals exact nomatch (show (none : Option Json) = some v from hv)

/-- Witness for C6's amended theorem at the payload `{"score": 7}`: the
response parses to an object whose only numeric field is in range, the
in-range hypothesis is established non-vacuously, and the resulting
report satisfies the invariant. -/
theorem report_invariant_for_in_range_payloads_witness :
    reportInRange (feedbackCore (Except.ok ("\x7b\"score\": 7\x7d"))) := by
  apply report_invariant_for_in_range_payloads
  intro m h
  have h' : some (Json.obj [(("score"), Json.num 7)]) = some (Json.obj m) := h
  injection h' with h2
  injection h2 with h3
  subst h3
  exact payloadInRange_score7

/-- Counterexample for C7: with an unparseable `original_script_json`
(the empty string) and a transcription response that is valid JSON but
not an object with a "transcription" key, the `/analyze` handler raises
(the subscript at src/app.py line 206 is outside every try-block) and an
error response results instead of a FeedbackReport. -/
theorem analyze_error_response_counterexample :
    parseJson ("") = none ∧
    (api_analyze ("") (Except.ok ("[1]")) (Except.error ())).isOk = false :=
  ⟨rfl, by decide⟩

/-- Claim C7 (amended): for every `/analyze` request whose
`original_script_json` does not parse, the handler proceeds with the
empty original script list; provided the transcription step yields a
mapping containing the "transcription" key (as the transcription
fallback always does), the request still produces the coerced feedback
report rather than an error.  (The degradation to the empty list covers
parse failures, documents that are neither arrays nor objects, and
objects lacking the "script" key; an object's non-list "script" value
is passed through, and a transcription result without the key raises
outside every handler.) -/
theorem analyze_defaults_on_unparseable_script
    (s : String) (trResp fbResp : Except Unit String)
    (h1 : parseJson s = none)
    (h2 : (pyGetItem (transcribe_audio_bytes trResp) ("transcription")).isOk = true) :
    parseOriginalScript s = Json.arr [] ∧
    api_analyze s trResp fbResp = Except.ok (feedbackCore fbResp) := by
  constructor
  · unfold parseOriginalScript
    rw [h1]
  · unfold api_analyze get_feedback_from_gemini
    cases hg : pyGetItem (transcribe_audio_bytes trResp) ("transcription") with
    | error e =>
      rw [hg] at h2
      exact Bool.noConfusion h2
    | ok v => rfl

/-- Witness for C7's amended theorem at a concrete request. -/
theorem analyze_defaults_on_unparseable_script_witness :
    parseOriginalScript ("") = Json.arr [] ∧
    api_analyze ("") (Except.error ()) (Except.error ()) =
      Except.ok (feedbackCore (Except.error ())) :=
  analyze_defaults_on_unparseable_script ("") (Except.error ()) (Except.error ())
    rfl (by decide)

/-
Lemmas about the Response Normalizer.  `str.replace(pat, "")` deletes
every occurrence anywhere in the text, so the round-trip below is
proved for texts with no backtick characters of their own; the
counterexample shows the claim's start-and-end-only reading fails.
-/

theorem delAllFuel_nil (pat : List Char) (fuel : Nat) : delAllFuel pat fuel [] = [] := by
  cases fuel <;> rfl

theorem delAllFuel_cons_pos (pat : List Char) (f : Nat) (c : Char) (rest : List Char)
    (h : pat.isPrefixOf (c :: rest) = true) :
    delAllFuel pat (f + 1) (c :: rest) = delAllFuel pat f (rest.drop (pat.length - 1)) := by
  show (if pat.isPrefixOf (c :: rest) then delAllFuel pat f (rest.drop (pat.length - 1))
        else c :: delAllFuel pat f rest) = _
  rw [h]
  exact if_pos rfl

theorem delAllFuel_cons_neg (pat : List Char) (f : Nat) (c : Char) (rest : List Char)
    (h : pat.isPrefixOf (c :: rest) = false) :
    delAllFuel pat (f + 1) (c :: rest) = c :: delAllFuel pat f rest := by
  show (if pat.isPrefixOf (c :: rest) then delAllFuel pat f (rest.drop (pat.length - 1))
        else c :: delAllFuel pat f rest) = _
  rw [h]
  exact if_neg (fun hh => Bool.noConfusion hh)

theorem isPrefixOf_append_self (p l : List Char) : p.isPrefixOf (p ++ l) = true := by
  induction p with
  | nil => cases l <;> rfl
  | cons a as ih =>
    show (a == a && as.isPrefixOf (as ++ l)) = true
    rw [ih, beq_self_eq_true]
    rfl

theorem isPrefixOf_of_length_lt (p : List Char) (l : List Char) (h : l.length < p.length) :
    p.isPrefixOf l = false := by
  induction p generalizing l with
  | nil => exact absurd h (Nat.not_lt_zero _)
  | cons a as ih =>
    cases l with
    | nil => rfl
    | cons b bs =>
      show (a == b && as.isPrefixOf bs) = false
      rw [ih bs (Nat.lt_of_succ_lt_succ h)]
      exact Bool.and_false _

theorem delAllFuel_short (pat : List Char) (l : List Char) (h : l.length < pat.length) :
    ∀ fuel, delAllFuel pat fuel l = l := by
  induction l with
  | nil => intro fuel; exact delAllFuel_nil pat fuel
  | cons c rest ih =>
    intro fuel
    cases fuel with
    | zero => rfl
    | succ f =>
      rw [delAllFuel_cons_neg pat f c rest (isPrefixOf_of_length_lt pat (c :: rest) h)]
      rw [ih (Nat.lt_of_succ_lt h) f]

theorem char_beq_false {a b : Char} (h : b ≠ a) : (a == b) = false := by
  cases hbe : (a == b)
  · rfl
  · exact absurd (eq_of_beq hbe).symm h

theorem fenceJson_not_prefix_of_ne (c : Char) (rest : List Char) (hc : c ≠ '`') :
    fenceJson.isPrefixOf (c :: rest) = false := by
  show (('`' == c) && (("``json").data.isPrefixOf rest)) = false
  rw [char_beq_false hc]
  exact Bool.false_and _

theorem fence_not_prefix_of_ne (c : Char) (rest : List Char) (hc : c ≠ '`') :
    fence.isPrefixOf (c :: rest) = false := by
  show (('`' == c) && (("``").data.isPrefixOf rest)) = false
  rw [char_beq_false hc]
  exact Bool.false_and _

theorem delAllFuel_fenceJson_keeps (t : List Char) (h : ∀ c ∈ t, c ≠ '`') :
    ∀ fuel, delAllFuel fenceJson fuel (t ++ fence) = t ++ fence := by
  induction t with
  | nil =>
    intro fuel
    simpa using delAllFuel_short fenceJson fence (by decide) fuel
  | cons c t ih =>
    intro fuel
    have hc : c ≠ '`' := h c (List.mem_cons_self c t)
    cases fuel with
    | zero => rfl
    | succ f =>
      rw [show ((c :: t) ++ fence : List Char) = c :: (t ++ fence) from rfl]
      rw [delAllFuel_cons_neg fenceJson f c (t ++ fence)
        (fenceJson_not_prefix_of_ne c (t ++ fence) hc)]
      rw [ih (fun x hx => h x (List.mem_cons_of_mem c hx)) f]

theorem delAllFuel_fenceJson_wrap (t : List Char) (h : ∀ c ∈ t, c ≠ '`') (f : Nat) :
    delAllFuel fenceJson (f + 1) (fenceJson ++ (t ++ fence)) = t ++ fence := by
  rw [show (fenceJson ++ (t ++ fence) : List Char)
      = '`' :: (("``json").data ++ (t ++ fence)) from rfl]
  rw [delAllFuel_cons_pos fenceJson f '`' (("``json").data ++ (t ++ fence))
    (isPrefixOf_append_self fenceJson (t ++ fence))]
  rw [show ((("``json").data ++ (t ++ fence)).drop (fenceJson.length - 1) : List Char)
      = t ++ fence from by
    rw [show (fenceJson.length - 1 : Nat) = ("``json").data.length from rfl]
    exact List.drop_left _ _]
  exact delAllFuel_fenceJson_keeps t h f

theorem delAllFuel_fence_unwrap (t : List Char) (h : ∀ c ∈ t, c ≠ '`') :
    ∀ fuel, t.length + 1 ≤ fuel → delAllFuel fence fuel (t ++ fence) = t := by
  induction t with
  | nil =>
    intro fuel hf
    obtain ⟨f, rfl⟩ : ∃ f, fuel = f + 1 := ⟨fuel - 1, by omega⟩
    show delAllFuel fence (f + 1) ('`' :: ['`', '`']) = []
    rw [delAllFuel_cons_pos fence f '`' ['`', '`'] (by decide)]
    rw [show ((['`', '`'] : List Char).drop (fence.length - 1)) = [] from rfl]
    exact delAllFuel_nil fence f
  | cons c t ih =>
    intro fuel hf
    obtain ⟨f, rfl⟩ : ∃ f, fuel = f + 1 := ⟨fuel - 1, by omega⟩
    have hc : c ≠ '`' := h c (List.mem_cons_self c t)
    rw [show ((c :: t) ++ fence : List Char) = c :: (t ++ fence) from rfl]
    rw [delAllFuel_cons_neg fence f c (t ++ fence)
      (fence_not_prefix_of_ne c (t ++ fence) hc)]
    rw [ih (fun x hx => h x (List.mem_cons_of_mem c hx)) f (by
      have : (c :: t).length + 1 ≤ f + 1 := hf
      simp only [List.length_cons] at this
      omega)]

theorem stripChars_tick_wrapped (mid : List Char) :
    stripChars ('`' :: (mid ++ ['`'])) = '`' :: (mid ++ ['`']) := by
  unfold stripChars
  rw [show List.dropWhile pyWs ('`' :: (mid ++ ['`'])) = '`' :: (mid ++ ['`']) from rfl]
  have h2 : ('`' :: (mid ++ ['`'])).reverse = '`' :: (mid.reverse ++ ['`']) := by
    simp [List.reverse_cons, List.reverse_append]
  rw [h2]
  rw [show List.dropWhile pyWs ('`' :: (mid.reverse ++ ['`'])) = '`' :: (mid.reverse ++ ['`'])
    from rfl]
  rw [← h2, List.reverse_reverse]

/-- The Response Normalizer inverts code-fence wrapping on any text that
contains no backtick of its own: stripping is the identity (the wrapped
text starts and ends with a backtick) and the two global deletions
remove exactly the wrapping. -/
theorem normalizeResponse_fenced (t : String) (h : ∀ c ∈ t.data, c ≠ '`') :
    normalizeResponse (("```json") ++ t ++ ("```")) = t := by
  obtain ⟨l⟩ := t
  have h' : ∀ c ∈ l, c ≠ '`' := h
  have hdata : ((("```json") ++ String.mk l ++ ("```")) : String).data
      = (fenceJson ++ l) ++ fence := rfl
  unfold normalizeResponse
  rw [hdata]
  have hshape : ((fenceJson ++ l) ++ fence : List Char)
      = '`' :: ((("``json").data ++ l ++ ['`', '`']) ++ ['`']) := by
    show ('`' :: (("``json").data ++ l)) ++ (['`', '`'] ++ ['`']) = _
    simp [List.cons_append, List.append_assoc]
  have hstrip : stripChars ((fenceJson ++ l) ++ fence) = (fenceJson ++ l) ++ fence := by
    rw [hshape, stripChars_tick_wrapped, ← hshape]
  rw [hstrip]
  have hlen1 : ((fenceJson ++ l) ++ fence).length = (l.length + 9) + 1 := by
    have e1 : fenceJson.length = 7 := rfl
    have e2 : fence.length = 3 := rfl
    simp only [List.length_append, e1, e2]
    omega
  rw [show delAll fenceJson ((fenceJson ++ l) ++ fence)
      = delAllFuel fenceJson ((fenceJson ++ l) ++ fence).length ((fenceJson ++ l) ++ fence)
      from rfl]
  rw [hlen1]
  rw [show ((fenceJson ++ l) ++ fence : List Char) = fenceJson ++ (l ++ fence)
      from List.append_assoc fenceJson l fence]
  rw [delAllFuel_fenceJson_wrap l h' (l.length + 9)]
  rw [show delAll fence (l ++ fence) = delAllFuel fence (l ++ fence).length (l ++ fence)
      from rfl]
  have hlen2 : (l ++ fence).length = l.length + 3 := by
    have e2 : fence.length = 3 := rfl
    simp only [List.length_append, e2]
  rw [hlen2]
  rw [delAllFuel_fence_unwrap l h' (l.length + 3) (by omega)]

/-- Counterexample for C5: the normalizer's global `replace` deletes
fence markers that occur inside the wrapped JSON document as well, so a
document containing "```" inside a string value is not returned
"exactly as parsed": the wrapped form parses to a different document
(the inner string becomes empty). -/
theorem normalizer_global_replace_counterexample :
    parseJson ("\x7b\"a\": \"```\"\x7d") = some (Json.obj [(("a"), Json.str ("```"))]) ∧
    parseJson (normalizeResponse (("```json") ++ ("\x7b\"a\": \"```\"\x7d") ++ ("```"))) =
      some (Json.obj [(("a"), Json.str (""))]) ∧
    (("" : String) ≠ ("```")) :=
  ⟨by rfl, by rfl, by decide⟩

/-- Claim C5 (amended): the normalizer strips whitespace and then
deletes every occurrence of "```json" and of "```" anywhere in the text
(not only at its ends).  Consequently (a) for every JSON text with no
backticks of its own, wrapping it in code-fence markers and normalizing
returns exactly the original parse, and (b) whenever the normalized
text is not valid JSON, the call sites return their designated fallback
(the dummy transcription, resp. the canonical default report) without
raising. -/
theorem normalizer_roundtrip_and_fallback :
    (∀ (t : String) (d : Json), (∀ c ∈ t.data, c ≠ '`') → parseJson t = some d →
      parseJson (normalizeResponse (("```json") ++ t ++ ("```"))) = some d) ∧
    (∀ txt : String, parseJson (normalizeResponse txt) = none →
      transcribe_audio_bytes (Except.ok txt) = fallbackTranscription ∧
      feedbackCore (Except.ok txt) = defaultFeedbackReport) := by
  constructor
  · intro t d hb hp
    rw [normalizeResponse_fenced t hb]
    exact hp
  · intro txt hn
    constructor
    · show (match parseJson (normalizeResponse txt) with
            | some d => d
            | none => fallbackTranscription) = fallbackTranscription
      rw [hn]
    · have hpipe : feedbackPipeline (Except.ok txt) = Except.error PyErr.jsonDecodeError := by
        show (match parseJson (normalizeResponse txt) with
              | none => Except.error PyErr.jsonDecodeError
              | some j => coerceReport j) = _
        rw [hn]
      unfold feedbackCore
      rw [hpipe]

/-- Witness for C5's amended theorem at concrete inputs. -/
theorem normalizer_roundtrip_and_fallback_witness :
    parseJson (normalizeResponse (("```json") ++ ("\x7b\"a\": 1\x7d") ++ ("```"))) =
      some (Json.obj [(("a"), Json.num 1)]) ∧
    transcribe_audio_bytes (Except.ok ("oops")) = fallbackTranscription ∧
    feedbackCore (Except.ok ("oops")) = defaultFeedbackReport :=
  ⟨normalizer_roundtrip_and_fallback.1 ("\x7b\"a\": 1\x7d") (Json.obj [(("a"), Json.num 1)])
      (by decide) (by rfl),
   normalizer_roundtrip_and_fallback.2 ("oops") (by rfl)⟩
